import Mathlib

/-!
Shallow embedding of `src/bot.py` (a single-order Binance futures CLI bot):
the argument parser and validator, the order-parameter builder and submission
boundary of `BasicBot.place_order`, and the `main` orchestration, together
with theorems settling the specification claims.

Python floats carry no arithmetic here (they are only passed through and
compared to zero), so numeric CLI values are modelled as rationals.
-/

set_option autoImplicit false

namespace TradeBot

/-- A value stored in the wire-parameter dict passed to
`client.futures_create_order`: Python strings or floats. -/
inductive WireValue where
  | str (s : String)
  | num (q : ℚ)
  deriving DecidableEq, Repr

/-- The wire-parameter dict, as the ordered key/value pairs the code inserts. -/
abbrev Params := List (String × WireValue)

/-- `binance.enums.ORDER_TYPE_LIMIT`. -/
abbrev ORDER_TYPE_LIMIT : String := "LIMIT"

/-- `binance.enums.TIME_IN_FORCE_GTC`. -/
abbrev TIME_IN_FORCE_GTC : String := "GTC"

/-- The fields of a successful `futures_create_order` response that the
program reads (`orderId`, `status`, `type`). -/
structure OrderResponse where
  orderId : Nat
  status : String
  type : String
  deriving DecidableEq, Repr

/-- Outcome of the exchange client's order-creation call: a success payload,
a `BinanceAPIException`, a `BinanceOrderException`, or any other exception. -/
inductive ExchangeOutcome where
  | success (resp : OrderResponse)
  | apiError (code : Int) (msg : String)
  | orderError (code : Int) (msg : String)
  | otherError (msg : String)
  deriving DecidableEq, Repr

/-- The exchange client's `futures_create_order`, as a function from the
wire parameters to its outcome. -/
abbrev ExchangeClient := Params → ExchangeOutcome

deriving instance DecidableEq for Except

/-- What a call to `BasicBot.place_order` does observably:
`result` is `.ok (some resp)` when it returns the response, `.ok none` when it
returns `None`, and `.error msg` when an exception escapes it;
`sentParams` records the parameters passed to `futures_create_order`,
or `none` when no network call was issued. -/
structure PlaceOutcome where
  result : Except String (Option OrderResponse)
  sentParams : Option Params
  deriving DecidableEq, Repr

/-- The `try` block of `place_order` (src/bot.py lines 81-101):
`BinanceAPIException` and `BinanceOrderException` are caught and turn into a
`None` return; any other exception escapes. -/
def submitOrder (client : ExchangeClient) (params : Params) : PlaceOutcome :=
  match client params with
  | .success resp => { result := .ok (some resp), sentParams := some params }
  | .apiError _ _ => { result := .ok none, sentParams := some params }
  | .orderError _ _ => { result := .ok none, sentParams := some params }
  | .otherError msg => { result := .error msg, sentParams := some params }

/-- `BasicBot.place_order` (src/bot.py lines 57-101): build the base params
dict, add `price` for LIMIT orders (returning `None` without a call when the
price is absent), then submit. -/
def place_order (client : ExchangeClient) (symbol side order_type : String)
    (quantity : ℚ) (price : Option ℚ) : PlaceOutcome :=
  let params : Params :=
    [("symbol", .str symbol), ("side", .str side), ("type", .str order_type),
     ("quantity", .num quantity), ("timeInForce", .str TIME_IN_FORCE_GTC)]
  if order_type = ORDER_TYPE_LIMIT then
    match price with
    | none => { result := .ok none, sentParams := none }
    | some p => submitOrder client (params ++ [("price", .num p)])
  else
    submitOrder client params

/-- A CLI token supplied to a `type=float` flag: either a token Python's
`float()` accepts (carrying its value) or one it rejects. -/
inductive FloatToken where
  | num (q : ℚ)
  | nonNum (s : String)
  deriving DecidableEq, Repr

/-- The raw command-line flags of one invocation; `none` means the flag was
not supplied. -/
structure RawArgs where
  symbol : Option String
  side : Option String
  type : Option String
  qty : Option FloatToken
  price : Option FloatToken
  deriving DecidableEq, Repr

/-- The parsed argument namespace produced by `parser.parse_args()`. -/
structure Args where
  symbol : String
  side : String
  type : String
  qty : ℚ
  price : Option ℚ
  deriving DecidableEq, Repr

/-- Models Python `argparse` running the parser configured in src/bot.py
lines 109-120: a missing required flag, a value outside a `choices` list, or
a token rejected by the `float` type converter makes `parser.error` terminate
the process with exit status 2. -/
def argparse (raw : RawArgs) : Except Nat Args :=
  match raw.symbol, raw.side, raw.type, raw.qty with
  | some symbol, some side, some ty, some qtyTok =>
    if ¬ (side = "BUY" ∨ side = "SELL") then .error 2
    else if ¬ (ty = "MARKET" ∨ ty = "LIMIT") then .error 2
    else
      match qtyTok with
      | .nonNum _ => .error 2
      | .num q =>
        match raw.price with
        | none => .ok ⟨symbol, side, ty, q, none⟩
        | some (.nonNum _) => .error 2
        | some (.num p) => .ok ⟨symbol, side, ty, q, some p⟩
  | _, _, _, _ => .error 2

/-- `args.price is None or args.price <= 0` (src/bot.py line 126). -/
def limitPriceBad : Option ℚ → Bool
  | none => true
  | some p => decide (p ≤ 0)

/-- The explicit validation in `validate_and_parse_args` after parsing
(src/bot.py lines 122-128): non-positive quantity, then a LIMIT order with a
missing or non-positive price, each exiting with status 1. -/
def semanticChecks (args : Args) : Except Nat Args :=
  if args.qty ≤ 0 then .error 1
  else if args.type = "LIMIT" ∧ limitPriceBad args.price then .error 1
  else .ok args

/-- `validate_and_parse_args` (src/bot.py lines 105-130): argparse followed
by the explicit checks; `.error c` means the process exits with status `c`. -/
def validate_and_parse_args (raw : RawArgs) : Except Nat Args :=
  (argparse raw).bind semanticChecks

/-- Python's `str.upper` (`.upper()` in src/bot.py lines 148-150), modelled
character-wise; it agrees with Python on the ASCII flag strings this program
handles. -/
def pyUpper (s : String) : String := ⟨s.data.map Char.toUpper⟩

/-- Python truthiness of `os.getenv` results: `None` and the empty string are
falsy. -/
def pyTruthy : Option String → Bool
  | none => false
  | some s => !s.isEmpty

/-- Observable outcome of one program run: the process exit status, whether
the exchange `Client` constructor was invoked, and the parameters of the
order-creation call if one was issued. -/
structure RunResult where
  exitCode : Nat
  clientConstructed : Bool
  sentParams : Option Params
  deriving DecidableEq, Repr

/-- Exit status of `main`'s `try` block given what `place_order` did: an
escaping exception is caught by `except Exception` and exits 1; otherwise
control falls off the end of `main` and the process exits 0. -/
def exitOfResult : Except String (Option OrderResponse) → Nat
  | .error _ => 1
  | .ok _ => 0

/-- The body of `main` after argument validation (src/bot.py lines 136-157):
credential truthiness check (exit 1), then a `try` block constructing
`BasicBot` (an init/ping exception is modelled by `initError`) and calling
`place_order` with upper-cased symbol/side/type; `except Exception` exits 1,
falling off the end exits 0. -/
def mainWithArgs (client : ExchangeClient) (apiKey apiSecret : Option String)
    (initError : Option String) (args : Args) : RunResult :=
  if ¬ (pyTruthy apiKey ∧ pyTruthy apiSecret) then
    { exitCode := 1, clientConstructed := false, sentParams := none }
  else
    match initError with
    | some _ => { exitCode := 1, clientConstructed := true, sentParams := none }
    | none =>
      let po := place_order client (pyUpper args.symbol) (pyUpper args.side)
        (pyUpper args.type) args.qty args.price
      { exitCode := exitOfResult po.result, clientConstructed := true,
        sentParams := po.sentParams }

/-- The whole program `main` (src/bot.py lines 132-157). -/
def runProgram (client : ExchangeClient) (apiKey apiSecret : Option String)
    (initError : Option String) (raw : RawArgs) : RunResult :=
  match validate_and_parse_args raw with
  | .error code => { exitCode := code, clientConstructed := false, sentParams := none }
  | .ok args => mainWithArgs client apiKey apiSecret initError args

/-- A missing required flag, a `side` outside BUY/SELL, a `type` outside
MARKET/LIMIT, or a non-numeric `qty`/`price` token. -/
def badCliInput (raw : RawArgs) : Prop :=
  raw.symbol = none ∨ raw.side = none ∨ raw.type = none ∨ raw.qty = none ∨
  (∃ s, raw.side = some s ∧ s ≠ "BUY" ∧ s ≠ "SELL") ∨
  (∃ t, raw.type = some t ∧ t ≠ "MARKET" ∧ t ≠ "LIMIT") ∨
  (∃ s, raw.qty = some (.nonNum s)) ∨
  (∃ s, raw.price = some (.nonNum s))

/-! ## Helper lemmas -/

theorem submitOrder_sentParams (client : ExchangeClient) (params : Params) :
    (submitOrder client params).sentParams = some params := by
  unfold submitOrder
  cases client params <;> rfl

theorem place_order_market (client : ExchangeClient) (s sd : String) (q : ℚ)
    (pr : Option ℚ) :
    place_order client s sd "MARKET" q pr =
      submitOrder client
        [("symbol", .str s), ("side", .str sd), ("type", .str "MARKET"),
         ("quantity", .num q), ("timeInForce", .str TIME_IN_FORCE_GTC)] := rfl

theorem place_order_limit_some (client : ExchangeClient) (s sd : String) (q p : ℚ) :
    place_order client s sd "LIMIT" q (some p) =
      submitOrder client
        [("symbol", .str s), ("side", .str sd), ("type", .str "LIMIT"),
         ("quantity", .num q), ("timeInForce", .str TIME_IN_FORCE_GTC),
         ("price", .num p)] := rfl

theorem place_order_limit_none (client : ExchangeClient) (s sd : String) (q : ℚ) :
    place_order client s sd "LIMIT" q none =
      { result := .ok none, sentParams := none } := rfl

theorem place_order_not_limit (client : ExchangeClient) (s sd t : String) (q : ℚ)
    (pr : Option ℚ) (ht : t ≠ ORDER_TYPE_LIMIT) :
    place_order client s sd t q pr =
      submitOrder client
        [("symbol", .str s), ("side", .str sd), ("type", .str t),
         ("quantity", .num q), ("timeInForce", .str TIME_IN_FORCE_GTC)] := by
  simp only [place_order, if_neg ht]

theorem pyTruthy_of_ne (s : String) (h : s ≠ "") : pyTruthy (some s) = true := by
  have he : s.isEmpty = false := by
    cases hi : s.isEmpty
    · rfl
    · exact absurd ((String.isEmpty_iff s).mp hi) h
  simp [pyTruthy, he]

theorem mainWithArgs_run (client : ExchangeClient) (key secret : Option String)
    (args : Args) (hk : pyTruthy key = true) (hs : pyTruthy secret = true) :
    mainWithArgs client key secret none args =
      { exitCode := exitOfResult (place_order client (pyUpper args.symbol)
          (pyUpper args.side) (pyUpper args.type) args.qty args.price).result,
        clientConstructed := true,
        sentParams := (place_order client (pyUpper args.symbol)
          (pyUpper args.side) (pyUpper args.type) args.qty
          args.price).sentParams } := by
  unfold mainWithArgs
  rw [if_neg (not_not_intro ⟨hk, hs⟩)]

theorem argparse_error_of_bad (raw : RawArgs) (h : badCliInput raw) :
    argparse raw = .error 2 := by
  obtain ⟨sy, sd, ty, qt, pr⟩ := raw
  rcases h with h | h | h | h | ⟨s, hs, hs1, hs2⟩ | ⟨t, ht, ht1, ht2⟩ | ⟨s, hs⟩ | ⟨s, hs⟩
  · subst h
    cases sd <;> cases ty <;> cases qt <;> rfl
  · subst h
    cases sy <;> cases ty <;> cases qt <;> rfl
  · subst h
    cases sy <;> cases sd <;> cases qt <;> rfl
  · subst h
    cases sy <;> cases sd <;> cases ty <;> rfl
  · cases hs
    cases sy <;> cases ty <;> cases qt <;> simp [argparse, hs1, hs2]
  · cases ht
    cases sy <;> cases sd <;> cases qt <;> simp [argparse, ht1, ht2]
  · cases hs
    cases sy <;> cases sd <;> cases ty <;> simp [argparse]
  · cases hs
    cases sy <;> cases sd <;> cases ty <;> rcases qt with _ | (q2 | s2) <;>
      simp [argparse]

theorem place_order_sent_mem (client : ExchangeClient) (s sd t : String)
    (q : ℚ) (pr : Option ℚ) (ps : Params)
    (h : (place_order client s sd t q pr).sentParams = some ps) :
    ("symbol", WireValue.str s) ∈ ps ∧ ("side", WireValue.str sd) ∈ ps := by
  by_cases ht : t = "LIMIT"
  · subst ht
    cases pr with
    | none =>
      rw [place_order_limit_none] at h
      simp at h
    | some p =>
      rw [place_order_limit_some, submitOrder_sentParams] at h
      cases h
      simp
  · rw [place_order_not_limit client s sd t q pr ht, submitOrder_sentParams] at h
    cases h
    simp

/-! ## Claim theorems -/

/-- C2: for every validated request the built wire parameters include the
GTC time-in-force flag (also for MARKET orders), and for a validated LIMIT
request with price `p` and quantity `q` the built wire parameters are exactly
symbol, side, type LIMIT, quantity `q`, timeInForce GTC, price `p`. -/
theorem claim_limit_wire_params (client : ExchangeClient) (s sd : String)
    (q p : ℚ) (pr : Option ℚ) (hq : 0 < q) (hp : 0 < p) :
    (∀ ps, (place_order client s sd "MARKET" q pr).sentParams = some ps →
      ("timeInForce", WireValue.str TIME_IN_FORCE_GTC) ∈ ps) ∧
    (∀ ps, (place_order client s sd "LIMIT" q (some p)).sentParams = some ps →
      ("timeInForce", WireValue.str TIME_IN_FORCE_GTC) ∈ ps) ∧
    (place_order client s sd "LIMIT" q (some p)).sentParams =
      some [("symbol", .str s), ("side", .str sd), ("type", .str "LIMIT"),
            ("quantity", .num q), ("timeInForce", .str TIME_IN_FORCE_GTC),
            ("price", .num p)] := by
  refine ⟨?_, ?_, ?_⟩
  · intro ps hps
    rw [place_order_market, submitOrder_sentParams] at hps
    cases hps
    simp [TIME_IN_FORCE_GTC]
  · intro ps hps
    rw [place_order_limit_some, submitOrder_sentParams] at hps
    cases hps
    simp [TIME_IN_FORCE_GTC]
  · rw [place_order_limit_some, submitOrder_sentParams]

theorem claim_limit_wire_params_witness :
    (0 : ℚ) < 1 / 100 ∧ (0 : ℚ) < 50000 ∧
    ((∀ ps, (place_order (fun _ => .success ⟨1, "NEW", "LIMIT"⟩) "BTCUSDT" "BUY"
        "MARKET" (1 / 100) (some 50000)).sentParams = some ps →
      ("timeInForce", WireValue.str TIME_IN_FORCE_GTC) ∈ ps) ∧
    (∀ ps, (place_order (fun _ => .success ⟨1, "NEW", "LIMIT"⟩) "BTCUSDT" "BUY"
        "LIMIT" (1 / 100) (some 50000)).sentParams = some ps →
      ("timeInForce", WireValue.str TIME_IN_FORCE_GTC) ∈ ps) ∧
    (place_order (fun _ => .success ⟨1, "NEW", "LIMIT"⟩) "BTCUSDT" "BUY"
        "LIMIT" (1 / 100) (some 50000)).sentParams =
      some [("symbol", .str "BTCUSDT"), ("side", .str "BUY"),
            ("type", .str "LIMIT"), ("quantity", .num (1 / 100)),
            ("timeInForce", .str TIME_IN_FORCE_GTC), ("price", .num 50000)]) :=
  ⟨by norm_num, by norm_num,
    claim_limit_wire_params (fun _ => .success ⟨1, "NEW", "LIMIT"⟩) "BTCUSDT"
      "BUY" (1 / 100) 50000 (some 50000) (by norm_num) (by norm_num)⟩

/-- C3: for a MARKET order any supplied positive price is ignored — the call
is issued and the sent wire parameters contain no price field. -/
theorem claim_market_ignores_price (client : ExchangeClient) (s sd : String)
    (q p : ℚ) (hp : 0 < p) :
    ∃ ps, (place_order client s sd "MARKET" q (some p)).sentParams = some ps ∧
      ∀ v, ("price", v) ∉ ps := by
  refine ⟨_, by rw [place_order_market, submitOrder_sentParams], ?_⟩
  intro v
  simp

theorem claim_market_ignores_price_witness :
    (0 : ℚ) < 100 ∧
    (∃ ps, (place_order (fun _ => .success ⟨1, "NEW", "MARKET"⟩) "BTCUSDT" "BUY"
        "MARKET" 1 (some 100)).sentParams = some ps ∧ ∀ v, ("price", v) ∉ ps) :=
  ⟨by norm_num,
    claim_market_ignores_price (fun _ => .success ⟨1, "NEW", "MARKET"⟩)
      "BTCUSDT" "BUY" 1 100 (by norm_num)⟩

/-- C8: calling `place_order` with a LIMIT order and an absent price returns
`None` without issuing the exchange order-creation call. -/
theorem claim_limit_missing_price_defensive (client : ExchangeClient)
    (s sd : String) (q : ℚ) :
    place_order client s sd "LIMIT" q none =
      { result := .ok none, sentParams := none } := rfl

/-- C10: calling `place_order` with a LIMIT order and a non-positive price
`p` does not trigger the defensive check: the exchange call is issued with
`price = p` among the wire parameters. -/
theorem claim_nonpositive_price_submitted (client : ExchangeClient)
    (s sd : String) (q p : ℚ) (hp : p ≤ 0) :
    (place_order client s sd "LIMIT" q (some p)).sentParams =
      some [("symbol", .str s), ("side", .str sd), ("type", .str "LIMIT"),
            ("quantity", .num q), ("timeInForce", .str TIME_IN_FORCE_GTC),
            ("price", .num p)] := by
  rw [place_order_limit_some, submitOrder_sentParams]

theorem claim_nonpositive_price_submitted_witness :
    (-5 : ℚ) ≤ 0 ∧
    (place_order (fun _ => .otherError "net down") "BTCUSDT" "SELL" "LIMIT" 1
        (some (-5))).sentParams =
      some [("symbol", .str "BTCUSDT"), ("side", .str "SELL"),
            ("type", .str "LIMIT"), ("quantity", .num 1),
            ("timeInForce", .str TIME_IN_FORCE_GTC), ("price", .num (-5))] :=
  ⟨by norm_num,
    claim_nonpositive_price_submitted (fun _ => .otherError "net down")
      "BTCUSDT" "SELL" 1 (-5) (by norm_num)⟩

/-- C1: for a validated request, an exchange-API-level or exchange-order-level
error raised by the order-creation call is caught — `place_order` returns
`None` and the process exits 0 — while any other exception is not caught by
`place_order`: it propagates and the process exits 1. -/
theorem claim_submission_error_boundary (args : Args) (key secret : String)
    (o : ExchangeOutcome)
    (htype : args.type = "MARKET" ∨ args.type = "LIMIT")
    (hq : 0 < args.qty)
    (hprice : args.type = "LIMIT" → ∃ p, args.price = some p ∧ 0 < p)
    (hkey : key ≠ "") (hsecret : secret ≠ "") :
    ((∃ c m, o = .apiError c m ∨ o = .orderError c m) →
      (place_order (fun _ => o) (pyUpper args.symbol) (pyUpper args.side)
        (pyUpper args.type) args.qty args.price).result = .ok none ∧
      (mainWithArgs (fun _ => o) (some key) (some secret) none args).exitCode = 0) ∧
    (∀ m, o = .otherError m →
      (place_order (fun _ => o) (pyUpper args.symbol) (pyUpper args.side)
        (pyUpper args.type) args.qty args.price).result = .error m ∧
      (mainWithArgs (fun _ => o) (some key) (some secret) none args).exitCode = 1) := by
  have hmain := mainWithArgs_run (fun _ => o) (some key) (some secret) args
    (pyTruthy_of_ne key hkey) (pyTruthy_of_ne secret hsecret)
  rcases htype with ht | ht
  · have hup : pyUpper args.type = "MARKET" := by rw [ht]; rfl
    rw [hup, place_order_market] at hmain ⊢
    constructor
    · rintro ⟨c, m, rfl | rfl⟩ <;> exact ⟨rfl, by rw [hmain]; rfl⟩
    · rintro m rfl
      exact ⟨rfl, by rw [hmain]; rfl⟩
  · obtain ⟨p, hp, _⟩ := hprice ht
    have hup : pyUpper args.type = "LIMIT" := by rw [ht]; rfl
    rw [hup, hp, place_order_limit_some] at hmain ⊢
    constructor
    · rintro ⟨c, m, rfl | rfl⟩ <;> exact ⟨rfl, by rw [hmain]; rfl⟩
    · rintro m rfl
      exact ⟨rfl, by rw [hmain]; rfl⟩

theorem claim_submission_error_boundary_witness :
    (place_order (fun _ => ExchangeOutcome.apiError (-1021) "Timestamp outside recvWindow")
        (pyUpper "btcusdt") (pyUpper "BUY") (pyUpper "MARKET") 1 none).result = .ok none ∧
    (mainWithArgs (fun _ => ExchangeOutcome.apiError (-1021) "Timestamp outside recvWindow")
        (some "key") (some "secret") none
        ⟨"btcusdt", "BUY", "MARKET", 1, none⟩).exitCode = 0 :=
  (claim_submission_error_boundary ⟨"btcusdt", "BUY", "MARKET", 1, none⟩
      "key" "secret" (.apiError (-1021) "Timestamp outside recvWindow")
      (Or.inl rfl) (by norm_num) (fun h => absurd h (by decide))
      (by decide) (by decide)).1
    ⟨-1021, "Timestamp outside recvWindow", Or.inl rfl⟩

/-- C4: a command-line input whose parsed quantity is non-positive makes the
program exit with status 1, constructing no exchange client and issuing no
exchange call. -/
theorem claim_nonpositive_qty_exits_one (client : ExchangeClient)
    (key secret initError : Option String) (raw : RawArgs) (args : Args)
    (hparse : argparse raw = .ok args) (hq : args.qty ≤ 0) :
    runProgram client key secret initError raw =
      { exitCode := 1, clientConstructed := false, sentParams := none } := by
  have hv : validate_and_parse_args raw = .error 1 := by
    unfold validate_and_parse_args
    rw [hparse]
    show semanticChecks args = .error 1
    unfold semanticChecks
    rw [if_pos hq]
  unfold runProgram
  rw [hv]

theorem claim_nonpositive_qty_exits_one_witness :
    argparse ⟨some "BTCUSDT", some "BUY", some "MARKET", some (.num (-1)), none⟩ =
      .ok ⟨"BTCUSDT", "BUY", "MARKET", -1, none⟩ ∧
    (-1 : ℚ) ≤ 0 ∧
    runProgram (fun _ => .otherError "net down") (some "key") (some "secret") none
      ⟨some "BTCUSDT", some "BUY", some "MARKET", some (.num (-1)), none⟩ =
      { exitCode := 1, clientConstructed := false, sentParams := none } :=
  ⟨by decide, by decide,
    claim_nonpositive_qty_exits_one (fun _ => .otherError "net down")
      (some "key") (some "secret") none _ ⟨"BTCUSDT", "BUY", "MARKET", -1, none⟩
      (by decide) (by decide)⟩

/-- C5: a command-line input parsed as a LIMIT order with a missing or
non-positive price makes the program exit with status 1 before any
submission is attempted. -/
theorem claim_limit_bad_price_exits_one (client : ExchangeClient)
    (key secret initError : Option String) (raw : RawArgs) (args : Args)
    (hparse : argparse raw = .ok args) (ht : args.type = "LIMIT")
    (hp : args.price = none ∨ ∃ p, args.price = some p ∧ p ≤ 0) :
    runProgram client key secret initError raw =
      { exitCode := 1, clientConstructed := false, sentParams := none } := by
  have hv : validate_and_parse_args raw = .error 1 := by
    unfold validate_and_parse_args
    rw [hparse]
    show semanticChecks args = .error 1
    unfold semanticChecks
    by_cases hq : args.qty ≤ 0
    · rw [if_pos hq]
    · have hcond : args.type = "LIMIT" ∧ limitPriceBad args.price := by
        refine ⟨ht, ?_⟩
        rcases hp with hp2 | ⟨p, hp2, hple⟩
        · rw [hp2]
          rfl
        · rw [hp2]
          exact decide_eq_true hple
      rw [if_neg hq, if_pos hcond]
  unfold runProgram
  rw [hv]

theorem claim_limit_bad_price_exits_one_witness :
    argparse ⟨some "BTCUSDT", some "BUY", some "LIMIT", some (.num 1), none⟩ =
      .ok ⟨"BTCUSDT", "BUY", "LIMIT", 1, none⟩ ∧
    runProgram (fun _ => .otherError "net down") (some "key") (some "secret") none
      ⟨some "BTCUSDT", some "BUY", some "LIMIT", some (.num 1), none⟩ =
      { exitCode := 1, clientConstructed := false, sentParams := none } :=
  ⟨by decide,
    claim_limit_bad_price_exits_one (fun _ => .otherError "net down")
      (some "key") (some "secret") none _ ⟨"BTCUSDT", "BUY", "LIMIT", 1, none⟩
      (by decide) rfl (Or.inl rfl)⟩

/-- C6: whatever the input casing of symbol and side, the values placed into
the wire request are their upper-cased forms (e.g. `btcusdt` becomes
`BTCUSDT`). -/
theorem claim_wire_values_uppercased (client : ExchangeClient)
    (key secret : Option String) (args : Args) (ps : Params)
    (h : (mainWithArgs client key secret none args).sentParams = some ps) :
    ("symbol", WireValue.str (pyUpper args.symbol)) ∈ ps ∧
    ("side", WireValue.str (pyUpper args.side)) ∈ ps ∧
    pyUpper "btcusdt" = "BTCUSDT" := by
  unfold mainWithArgs at h
  by_cases hc : ¬ (pyTruthy key ∧ pyTruthy secret)
  · rw [if_pos hc] at h
    exact absurd h (by simp)
  · rw [if_neg hc] at h
    have h2 : (place_order client (pyUpper args.symbol) (pyUpper args.side)
        (pyUpper args.type) args.qty args.price).sentParams = some ps := h
    obtain ⟨h3, h4⟩ := place_order_sent_mem client (pyUpper args.symbol)
      (pyUpper args.side) (pyUpper args.type) args.qty args.price ps h2
    exact ⟨h3, h4, rfl⟩

theorem claim_wire_values_uppercased_witness :
    ("symbol", WireValue.str (pyUpper "btcusdt")) ∈
      [("symbol", WireValue.str "BTCUSDT"), ("side", WireValue.str "BUY"),
       ("type", WireValue.str "MARKET"), ("quantity", WireValue.num 1),
       ("timeInForce", WireValue.str "GTC")] ∧
    ("side", WireValue.str (pyUpper "buy")) ∈
      [("symbol", WireValue.str "BTCUSDT"), ("side", WireValue.str "BUY"),
       ("type", WireValue.str "MARKET"), ("quantity", WireValue.num 1),
       ("timeInForce", WireValue.str "GTC")] ∧
    pyUpper "btcusdt" = "BTCUSDT" :=
  claim_wire_values_uppercased (fun _ => .success ⟨1, "NEW", "MARKET"⟩)
    (some "key") (some "secret") ⟨"btcusdt", "buy", "market", 1, none⟩ _ (by decide)

/-- C7 counterexample: with `--side HOLD` (an invalid choice) the process
exits with status 2, not 1 as the claim states. -/
theorem claim_cli_error_exit_counterexample :
    (runProgram (fun _ => .otherError "net down") (some "key") (some "secret")
      none ⟨some "BTCUSDT", some "HOLD", some "MARKET", some (.num 1), none⟩).exitCode ≠ 1 := by
  decide

/-- C7 amended: for every invocation with a missing required flag, a side
outside BUY/SELL, a type outside MARKET/LIMIT, or a non-numeric qty/price,
the process exits with status 2 — argparse's error exit status — with no
exchange client constructed and no call issued. -/
theorem claim_cli_error_exits_two (client : ExchangeClient)
    (key secret initError : Option String) (raw : RawArgs)
    (h : badCliInput raw) :
    runProgram client key secret initError raw =
      { exitCode := 2, clientConstructed := false, sentParams := none } := by
  unfold runProgram validate_and_parse_args
  rw [argparse_error_of_bad raw h]
  rfl

theorem claim_cli_error_exits_two_witness :
    badCliInput ⟨some "BTCUSDT", some "HOLD", some "MARKET", some (.num 1), none⟩ ∧
    runProgram (fun _ => .otherError "net down") (some "key") (some "secret") none
      ⟨some "BTCUSDT", some "HOLD", some "MARKET", some (.num 1), none⟩ =
      { exitCode := 2, clientConstructed := false, sentParams := none } :=
  ⟨Or.inr (Or.inr (Or.inr (Or.inr (Or.inl ⟨"HOLD", rfl, by decide, by decide⟩)))),
    claim_cli_error_exits_two (fun _ => .otherError "net down") (some "key")
      (some "secret") none _
      (Or.inr (Or.inr (Or.inr (Or.inr (Or.inl ⟨"HOLD", rfl, by decide, by decide⟩)))))⟩

/-- C9: a credential set to the empty string is treated exactly like an
absent one — the program exits with status 1 before constructing any
exchange client, the same run result as with the credential absent. -/
theorem claim_empty_credential_exits_one (client : ExchangeClient)
    (initError : Option String) (raw : RawArgs) (args : Args)
    (key secret : Option String)
    (hv : validate_and_parse_args raw = .ok args)
    (h : key = some "" ∨ secret = some "") :
    runProgram client key secret initError raw =
      { exitCode := 1, clientConstructed := false, sentParams := none } ∧
    runProgram client key secret initError raw =
      runProgram client none none initError raw := by
  have hrun : ∀ k s : Option String, ¬ (pyTruthy k ∧ pyTruthy s) →
      runProgram client k s initError raw =
        { exitCode := 1, clientConstructed := false, sentParams := none } := by
    intro k s hks
    unfold runProgram
    rw [hv]
    show mainWithArgs client k s initError args = _
    unfold mainWithArgs
    rw [if_pos hks]
  have hcred : ¬ (pyTruthy key ∧ pyTruthy secret) := by
    rcases h with rfl | rfl
    · rintro ⟨hk, _⟩
      exact absurd hk (by decide)
    · rintro ⟨_, hs⟩
      exact absurd hs (by decide)
  refine ⟨hrun key secret hcred, ?_⟩
  rw [hrun key secret hcred, hrun none none (by decide)]

theorem claim_empty_credential_exits_one_witness :
    validate_and_parse_args ⟨some "BTCUSDT", some "BUY", some "MARKET", some (.num 1), none⟩ =
      .ok ⟨"BTCUSDT", "BUY", "MARKET", 1, none⟩ ∧
    (runProgram (fun _ => .otherError "net down") (some "") (some "secret") none
      ⟨some "BTCUSDT", some "BUY", some "MARKET", some (.num 1), none⟩ =
      { exitCode := 1, clientConstructed := false, sentParams := none } ∧
    runProgram (fun _ => .otherError "net down") (some "") (some "secret") none
      ⟨some "BTCUSDT", some "BUY", some "MARKET", some (.num 1), none⟩ =
      runProgram (fun _ => .otherError "net down") none none none
      ⟨some "BTCUSDT", some "BUY", some "MARKET", some (.num 1), none⟩) :=
  ⟨by decide,
    claim_empty_credential_exits_one (fun _ => .otherError "net down") none _
      ⟨"BTCUSDT", "BUY", "MARKET", 1, none⟩ (some "") (some "secret")
      (by decide) (Or.inl rfl)⟩

end TradeBot
